import Mathlib

/-!
Verification development for the open-reader chunk audio generation
pipeline.  The definitions below are a shallow embedding of the Python
source (apps/backend and apps/python): pure data is modelled directly,
the Redis cache as an explicit state record, fallible collaborator calls
(speech synthesis, S3 upload, DB commit) as explicit outcome parameters,
and the FastAPI route handlers / chunk processor as state-passing
functions mirroring the source control flow statement by statement.
Time-to-live values on cache entries are not modelled (no clock).
-/

namespace OpenReader

/-- Audio payloads: byte sequences, each byte a `Nat`. -/
abbrev ByteSeq := List Nat

/-- Outcome of a fallible collaborator call: a returned value or a raised
exception carrying its message (Python `raise`). -/
inductive StepResult (α : Type) where
  | ret (a : α)
  | exc (msg : String)
deriving DecidableEq, Repr

/-- Python truthiness test used on `Optional[bytes]` values:
`None` and the empty byte string are falsy. -/
def isFalsy : Option ByteSeq → Bool
  | none => true
  | some [] => true
  | some (_ :: _) => false

/-! ## Cache & Dedup Store (apps/backend/app/services/redis_service.py)

The Redis keyspace used by the TTS router, as an explicit state record:
`processing:chunk:{id}`, `audio:chunk:{id}`, `buffer:document:{id}`.
Expiry arguments are dropped (no clock in the model). -/

structure RedisState where
  processing : Nat → Option String
  audioCache : Nat → Option String
  bufferQueue : Nat → List Nat

/-- `RedisService.set_processing_status` (a plain `SETEX`, no `NX`). -/
def set_processing_status (s : RedisState) (chunk_id : Nat) (status : String) : RedisState :=
  { s with processing := fun c => if c = chunk_id then some status else s.processing c }

/-- `RedisService.get_processing_status`. -/
def get_processing_status (s : RedisState) (chunk_id : Nat) : Option String :=
  s.processing chunk_id

/-- `RedisService.delete_processing_status`. -/
def delete_processing_status (s : RedisState) (chunk_id : Nat) : RedisState :=
  { s with processing := fun c => if c = chunk_id then none else s.processing c }

/-- `RedisService.set_audio_cache`. -/
def set_audio_cache (s : RedisState) (chunk_id : Nat) (audio_file_key : String) : RedisState :=
  { s with audioCache := fun c => if c = chunk_id then some audio_file_key else s.audioCache c }

/-- `RedisService.get_audio_cache`. -/
def get_audio_cache (s : RedisState) (chunk_id : Nat) : Option String :=
  s.audioCache chunk_id

/-- `RedisService.get_buffer_queue`. -/
def get_buffer_queue (s : RedisState) (document_id : Nat) : List Nat :=
  s.bufferQueue document_id

/-- A Redis state with no keys set. -/
def emptyRedis : RedisState :=
  { processing := fun _ => none, audioCache := fun _ => none, bufferQueue := fun _ => [] }

/-! ## Provider Selector (apps/backend/app/services/tts_service.py)

`TTSService.generate_speech` tries Together-Sonic, then direct Cartesia,
then the ElevenLabs demo helper, each returning `Optional[bytes]`; it
advances on a falsy result (`if not audio_data`).  The three helpers are
network calls, modelled as function parameters; the run also records
which providers were invoked, in order. -/

structure SelectorRun where
  result : Option ByteSeq
  invoked : List Nat
deriving DecidableEq, Repr

/-- `TTSService.generate_speech`: providers in fixed order 0,1,2; advance
while the accumulated result is falsy; return the last value tried. -/
def generate_speech (p1 p2 p3 : String → Option ByteSeq) (text : String) : SelectorRun :=
  let a1 := p1 text
  if isFalsy a1 then
    let a2 := p2 text
    if isFalsy a2 then
      ⟨p3 text, [0, 1, 2]⟩
    else ⟨a2, [0, 1]⟩
  else ⟨a1, [0]⟩

/-- `TTSService.generate_speech_cartesia_direct`: `None` without an API
key; on HTTP 200 the raw body (however short) is returned; any other
status or an exception yields `None`. -/
def generate_speech_cartesia_direct (apiKeyConfigured : Bool) (status : Nat)
    (content : ByteSeq) : Option ByteSeq :=
  if !apiKeyConfigured then none
  else if status = 200 then some content
  else none

/-! ## Provider Adapters and Factory (apps/python/tts_providers.py) -/

/-- The adapter variants `TTSProviderFactory.create_provider` can build. -/
inductive TTSProvider where
  | elevenLabs (apiKey : String)
  | awsPolly
  | openai (apiKey : String)
  | cartesia (apiKey : String)
  | fallback
deriving DecidableEq, Repr

/-- `TTSProviderFactory.create_provider`: five recognised names, a raised
`ValueError` for anything else. -/
def create_provider (provider_name api_key : String) : Except String TTSProvider :=
  if provider_name = "elevenlabs" then .ok (.elevenLabs api_key)
  else if provider_name = "polly" then .ok .awsPolly
  else if provider_name = "openai" then .ok (.openai api_key)
  else if provider_name = "cartesia" then .ok (.cartesia api_key)
  else if provider_name = "fallback" then .ok .fallback
  else .error ("Unsupported TTS provider: " ++ provider_name)

/-- `TTSProviderFactory.get_supported_providers`. -/
def get_supported_providers : List String :=
  ["elevenlabs", "polly", "openai", "cartesia", "fallback"]

/-- `CartesiaProvider.generate_audio`: a non-200 response raises; a 200
response returns `response.content` unchecked (the body may be empty). -/
def cartesia_generate_audio (status : Nat) (content : ByteSeq) : StepResult ByteSeq :=
  if status ≠ 200 then .exc "Cartesia API error"
  else .ret content

/-! ## Chunk records (apps/backend/app/models/document.py)

`TextChunk` columns relevant to the TTS router.  Note the backend record
has no error column of any kind. -/

structure TextChunk where
  id : Nat
  document_id : Nat
  chunk_index : Nat
  content : String
  has_audio : Bool
  audio_file_key : Option String
deriving DecidableEq, Repr

/-- SQLAlchemy `.filter(TextChunk.id == cid).first()` then set
`has_audio`/`audio_file_key` and commit: update the first matching row. -/
def db_update_first (db : List TextChunk) (cid : Nat) (key : String) : List TextChunk :=
  match db with
  | [] => []
  | c :: rest =>
    if c.id = cid then { c with has_audio := true, audio_file_key := some key } :: rest
    else c :: db_update_first rest cid key

/-! ## Background generation task (apps/backend/app/routers/tts.py)

`generate_tts_background(chunk_id, text, db)`.  The fallible steps —
`tts_service.generate_speech`, `s3_service.upload_file`, `db.commit()` —
are supplied as outcomes; the fresh `uuid4` object key is a parameter.
Redis operations are pure state updates (the service does not raise in
the model).  On a commit exception the session's in-memory mutation is
not treated as persisted: the database list is returned unchanged. -/

structure BgEnv where
  speechResult : StepResult (Option ByteSeq)
  uploadResult : StepResult Bool
  commitResult : StepResult Unit

/-- `generate_tts_background`: try-body ending in
`delete_processing_status`, and an `except` handler that also calls
`delete_processing_status`. -/
def generate_tts_background (env : BgEnv) (audio_key : String) (chunk_id : Nat)
    (db : List TextChunk) (r : RedisState) : List TextChunk × RedisState :=
  match env.speechResult with
  | .exc _ => (db, delete_processing_status r chunk_id)
  | .ret audio_data =>
    if isFalsy audio_data then
      (db, delete_processing_status r chunk_id)
    else
      match env.uploadResult with
      | .exc _ => (db, delete_processing_status r chunk_id)
      | .ret success =>
        if success then
          if db.any (fun c => c.id = chunk_id) then
            match env.commitResult with
            | .exc _ => (db, delete_processing_status r chunk_id)
            | .ret _ =>
              let db2 := db_update_first db chunk_id audio_key
              let r2 := set_audio_cache r chunk_id audio_key
              (db2, delete_processing_status r2 chunk_id)
          else
            let r2 := set_audio_cache r chunk_id audio_key
            (db, delete_processing_status r2 chunk_id)
        else (db, delete_processing_status r chunk_id)

/-! ## The `/tts/generate` route (apps/backend/app/routers/tts.py)

`generate_tts`.  The S3 collaborator (`file_exists`, `get_presigned_url`)
is passed as functions; the response and the list of chunk ids handed to
`background_tasks.add_task` (each of which runs
`generate_tts_background`, i.e. invokes providers) are returned
explicitly. -/

inductive TTSOutcome where
  | notFound
  | cached (url : String)
  | conflict
  | accepted
deriving DecidableEq, Repr

structure GTResult where
  response : TTSOutcome
  dispatched : List Nat
  redis : RedisState

/-- The prefetch query and cache filter of `generate_tts`: same-document
chunks with index in `(i, i+2]`, keeping those with no audio-cache
entry.  In-flight markers are not consulted. -/
def prefetch_targets (db : List TextChunk) (r : RedisState) (chunk : TextChunk) : List Nat :=
  ((db.filter fun c =>
      decide (c.document_id = chunk.document_id ∧
        chunk.chunk_index < c.chunk_index ∧
        c.chunk_index ≤ chunk.chunk_index + 2)).filter
    fun c => get_audio_cache r c.id = none).map (·.id)

/-- The claim-and-dispatch tail of `generate_tts`: mark the requested
chunk as processing, dispatch its background task, then — only when the
requested id is not in the document's buffer queue — dispatch the
prefetch targets; answer HTTP 202. -/
def claim_and_dispatch (db : List TextChunk) (r : RedisState) (chunk : TextChunk) : GTResult :=
  let r1 := set_processing_status r chunk.id "processing"
  let prefetched :=
    if chunk.id ∈ get_buffer_queue r1 chunk.document_id then []
    else prefetch_targets db r1 chunk
  ⟨.accepted, chunk.id :: prefetched, r1⟩

/-- `generate_tts`: 404 on unknown chunk; cached return only when the
cache key is present, the object exists and a presigned URL is obtained;
409 when the processing status equals "processing"; otherwise claim and
dispatch. -/
def generate_tts (file_exists : String → Bool) (presign : String → Option String)
    (db : List TextChunk) (r : RedisState) (cid : Nat) : GTResult :=
  match db.find? (fun c => c.id = cid) with
  | none => ⟨.notFound, [], r⟩
  | some chunk =>
    let afterCache : GTResult :=
      if get_processing_status r cid = some "processing" then ⟨.conflict, [], r⟩
      else claim_and_dispatch db r chunk
    match get_audio_cache r cid with
    | none => afterCache
    | some key =>
      if file_exists key then
        match presign key with
        | some url => ⟨.cached url, [], r⟩
        | none => afterCache
      else afterCache

/-! ## The claim race (tts.py lines 38–43)

The router's claim of a chunk is `get_processing_status` followed by
`set_processing_status` — two separate store operations.  Two workers
serving the same chunk concurrently interleave at the store; a caller is
a two-step program over the shared `RedisState`. -/

structure Caller where
  pc : Nat
  conflicted : Bool
deriving DecidableEq, Repr

/-- One step of a caller's claim attempt: at pc 0 it performs the
router's status check (`processing_status == "processing"` → report
conflict and stop); at pc 1 it performs the `SETEX` and completes. -/
def stepCaller (cid : Nat) (r : RedisState) (c : Caller) : Caller × RedisState :=
  if c.pc = 0 then
    if get_processing_status r cid = some "processing" then
      ({ c with pc := 2, conflicted := true }, r)
    else ({ c with pc := 1 }, r)
  else if c.pc = 1 then
    ({ c with pc := 2 }, set_processing_status r cid "processing")
  else (c, r)

structure RaceState where
  a : Caller
  b : Caller
  r : RedisState

/-- Run one scheduled step: `false` steps caller `a`, `true` steps `b`. -/
def stepRace (cid : Nat) (s : RaceState) (pick : Bool) : RaceState :=
  if pick then
    let (c, r) := stepCaller cid s.r s.b
    { s with b := c, r := r }
  else
    let (c, r) := stepCaller cid s.r s.a
    { s with a := c, r := r }

/-- Run a whole interleaving schedule of two concurrent claim attempts. -/
def runSchedule (cid : Nat) (sched : List Bool) (s : RaceState) : RaceState :=
  sched.foldl (stepRace cid) s

/-- A caller succeeded in claiming the chunk: it ran to completion
without observing a conflict (and so dispatched generation). -/
def claimSucceeded (c : Caller) : Bool :=
  c.pc = 2 && !c.conflicted

/-! ## Chunk records of the python app (apps/python/models.py)

`Chunk` columns used by the chunk processor; ids are UUIDs, modelled as
strings. -/

structure PChunk where
  id : String
  pdfId : String
  index : Nat
  text : String
  audioUrl : Option String
  status : String
  error_message : Option String
deriving DecidableEq, Repr

/-- The `except` handler of `ChunkProcessor.process_chunk`: set the
status to "error" and store the exception message, then commit. -/
def errored (c : PChunk) (msg : String) : PChunk :=
  { c with status := "error", error_message := some msg }

/-! ## ChunkProcessor (apps/python/chunk_processor.py)

`process_chunk` guards on the in-memory `processing_chunks` map (the
membership test, the insertion, and the `finally` pop are explicit),
then runs the try/except body.  The fallible steps — the initial
`db.commit()`, `tts_provider.generate_audio`, `s3_storage.upload_audio`,
and the final `db.commit()` — are supplied as outcomes; provider
construction uses `create_provider`, whose error is caught by the same
handler.  The handler's own commit is treated as infallible. -/

structure PCEnv where
  commit1 : StepResult Unit
  genAudio : StepResult ByteSeq
  upload : StepResult String
  commit2 : StepResult Unit

/-- `ChunkProcessor.process_chunk`: returns the boolean result, the
chunk record as left by the attempt, and the `processing_chunks` set
after the `finally` block. -/
def process_chunk (provider_name api_key : String) (env : PCEnv) (chunk : PChunk)
    (procs : List String) : Bool × PChunk × List String :=
  if chunk.id ∈ procs then (false, chunk, procs)
  else
    let procs1 := chunk.id :: procs
    let body : Bool × PChunk :=
      match env.commit1 with
      | .exc m => (false, errored { chunk with status := "processing" } m)
      | .ret _ =>
        let c1 := { chunk with status := "processing" }
        match create_provider provider_name api_key with
        | .error m => (false, errored c1 m)
        | .ok _ =>
          match env.genAudio with
          | .exc m => (false, errored c1 m)
          | .ret _ =>
            match env.upload with
            | .exc m => (false, errored c1 m)
            | .ret url =>
              match env.commit2 with
              | .exc m => (false, errored { c1 with audioUrl := some url } m)
              | .ret _ => (true, { c1 with audioUrl := some url, status := "completed" })
    (body.1, body.2, procs1.erase chunk.id)

/-! ## Batch scheduler (apps/python/chunk_processor.py)

`process_chunks_batch` slices the list as `chunks[i:i+batch_size]` for
`i in range(0, len(chunks), batch_size)`, awaits each slice with
`asyncio.gather(..., return_exceptions=True)`, and counts results that
are literally `True`.  A gathered member either returned a boolean or
raised (the exception is captured as a value). -/

inductive GatherResult where
  | ok (b : Bool)
  | exc
deriving DecidableEq, Repr

/-- The `range(0, len, W)` slicing: successive groups `take W`/`drop W`. -/
def groupsOf (W : Nat) (l : List PChunk) : List (List PChunk) :=
  if h : W = 0 ∨ l = [] then []
  else (l.take W) :: groupsOf W (l.drop W)
termination_by l.length
decreasing_by
  have hW : W ≠ 0 := fun hw => h (Or.inl hw)
  rcases l with _ | ⟨x, xs⟩
  · exact absurd (Or.inr rfl) h
  · simp only [List.length_drop, List.length_cons]
    omega

/-- Count the results of one gathered group that are literally `True`. -/
def count_successes (outcome : PChunk → GatherResult) (batch : List PChunk) : Nat :=
  (batch.filter fun c => outcome c = .ok true).length

/-- `ChunkProcessor.process_chunks_batch`: fold the groups in order,
adding each group's successful count. -/
def process_chunks_batch (outcome : PChunk → GatherResult) (chunks : List PChunk)
    (batch_size : Nat) : Nat :=
  (groupsOf batch_size chunks).foldl (fun acc batch => acc + count_successes outcome batch) 0

/-! ## The `/upload` route (apps/python/main.py)

`upload_pdf`.  Validation happens before any side effect; the PDF
text/chunking results and the S3 upload outcome are parameters, the new
document's id is a parameter (the DB assigns UUIDs), and the observable
side effects — document rows, chunk rows, stored objects, dispatched
background tasks — are collected in an explicit application state.
`HTTPException`s raised in the body are caught by the blanket handler
and re-raised with their message, so every failure is an `Except.error`
carrying the original detail. -/

structure PyAppState where
  documents : List String
  chunkRecords : List PChunk
  storedKeys : List String
  dispatched : List String
deriving DecidableEq, Repr

/-- Python `str.lower()` as used on filenames (character-wise). -/
def lowerStr (s : String) : String := ⟨s.data.map Char.toLower⟩

/-- Python `str.endswith(suffix)`. -/
def endsWithStr (s suffix : String) : Bool := suffix.data.isSuffixOf s.data

structure UploadEnv where
  text : String
  chunks : List String
  totalPages : Nat
  uploadPdf : StepResult String

structure UploadResponse where
  chunks : List String
  audioId : String
  totalChunks : Nat
deriving DecidableEq, Repr

/-- `upload_pdf`: reject non-`.pdf` filenames (case-insensitively), then
files over 20 MB, then a missing API key for non-fallback providers,
then empty extracted text and empty chunk lists; only after all
validation does it store the PDF, create the document and chunk rows and
dispatch processing of the first chunk. -/
def upload_pdf (filename : String) (size : Nat) (provider api_key : String)
    (env : UploadEnv) (docId : String) (st : PyAppState) :
    Except String UploadResponse × PyAppState :=
  if !(endsWithStr (lowerStr filename) ".pdf") then
    (.error "Only PDF files are allowed", st)
  else if size > 20 * 1024 * 1024 then
    (.error "File size should be less than 20MB", st)
  else if provider ≠ "fallback" ∧ api_key = "" then
    (.error "API key is required for non-fallback providers", st)
  else if env.text.trim = "" then
    (.error "No text found in PDF", st)
  else
    match env.chunks with
    | [] => (.error "No text chunks created", st)
    | c0 :: rest =>
      match env.uploadPdf with
      | .exc m => (.error m, st)
      | .ret _ =>
        let records := (List.enum (c0 :: rest)).map fun p =>
          PChunk.mk (docId ++ "_" ++ toString p.1) docId p.1 p.2 none "pending" none
        let first := PChunk.mk (docId ++ "_0") docId 0 c0 none "pending" none
        let st1 : PyAppState :=
          { documents := st.documents ++ [docId]
            chunkRecords := st.chunkRecords ++ records
            storedKeys := st.storedKeys ++ ["pdfs/" ++ filename]
            dispatched := st.dispatched ++ [first.id] }
        (.ok ⟨c0 :: rest, docId, (c0 :: rest).length⟩, st1)

/-! ## Concrete instances used to exercise the definitions -/

/-- A chunk row of the backend store (document 10, index 0). -/
def exChunk : TextChunk := ⟨1, 10, 0, "hello", false, none⟩

/-- A Redis state whose audio cache holds key "k" for chunk 1. -/
def exRedisCached : RedisState :=
  { emptyRedis with audioCache := fun c => if c = 1 then some "k" else none }

/-- Four chunks of document 10 at indices 0–3. -/
def exDb4 : List TextChunk :=
  [⟨1, 10, 0, "a", false, none⟩, ⟨2, 10, 1, "b", false, none⟩,
   ⟨3, 10, 2, "c", false, none⟩, ⟨4, 10, 3, "d", false, none⟩]

/-- A Redis state in which chunk 2 is marked in flight. -/
def exRedisInflight2 : RedisState :=
  { emptyRedis with processing := fun c => if c = 2 then some "processing" else none }

/-- A Redis state with a (stale) cache entry for chunk 1 and chunk 1
also marked in flight. -/
def exRedisStaleBusy : RedisState :=
  { emptyRedis with
      audioCache := fun c => if c = 1 then some "k" else none
      processing := fun c => if c = 1 then some "processing" else none }

/-- A Redis state whose buffer queue for document 10 contains chunk 1. -/
def exRedisBuffered : RedisState :=
  { emptyRedis with bufferQueue := fun d => if d = 10 then [1] else [] }

/-- Three chunks for the python processor. -/
def pA : PChunk := ⟨"a", "p", 0, "ta", none, "pending", none⟩
def pB : PChunk := ⟨"b", "p", 1, "tb", none, "pending", none⟩
def pC : PChunk := ⟨"c", "p", 2, "tc", none, "pending", none⟩

/-- A gathered outcome map: member "b" raises, the others succeed. -/
def exOutcome : PChunk → GatherResult :=
  fun c => if c.id = "b" then .exc else .ok true

/-! # Theorems -/

/-- Claim C9: `create_provider` succeeds exactly on the five names
reported by `get_supported_providers` and raises on every other name. -/
theorem create_provider_closed_set (name key : String) :
    (∃ p, create_provider name key = Except.ok p) ↔ name ∈ get_supported_providers := by
  unfold create_provider get_supported_providers
  split_ifs with h1 h2 h3 h4 h5 <;> simp_all

/-- Claim C4: the selector invokes providers strictly in order, stops at
the first non-falsy (non-empty successful) result and returns it, keeps
going past a failed provider, and its overall result is a failure
exactly when all three providers failed. -/
theorem generate_speech_fallback_chain (p1 p2 p3 : String → Option ByteSeq) (text : String) :
    (isFalsy (p1 text) = false →
      generate_speech p1 p2 p3 text = ⟨p1 text, [0]⟩) ∧
    (isFalsy (p1 text) = true → isFalsy (p2 text) = false →
      generate_speech p1 p2 p3 text = ⟨p2 text, [0, 1]⟩) ∧
    (isFalsy (p1 text) = true → isFalsy (p2 text) = true →
      generate_speech p1 p2 p3 text = ⟨p3 text, [0, 1, 2]⟩) ∧
    (isFalsy (generate_speech p1 p2 p3 text).result = true ↔
      (isFalsy (p1 text) = true ∧ isFalsy (p2 text) = true ∧ isFalsy (p3 text) = true)) := by
  unfold generate_speech
  cases h1 : isFalsy (p1 text) <;> cases h2 : isFalsy (p2 text) <;> simp [h1, h2]

/-- Witness for C4: first two providers fail, the third succeeds and its
result is returned with all three invoked in order. -/
theorem generate_speech_fallback_chain_witness :
    generate_speech (fun _ => none) (fun _ => some []) (fun _ => some [1]) "hi" =
      ⟨some [1], [0, 1, 2]⟩ :=
  (generate_speech_fallback_chain (fun _ => none) (fun _ => some []) (fun _ => some [1])
    "hi").2.2.1 rfl rfl

/-- Claim C2: every exit path of a generation attempt leaves the
in-flight marker absent — in the backend background task the Redis
processing key is deleted on success, failure and exception alike, and
in the python processor the `finally` block removes the chunk from the
in-memory processing set on every path. -/
theorem inflight_marker_cleared_on_every_exit
    (env : BgEnv) (key : String) (cid : Nat) (db : List TextChunk) (r : RedisState)
    (pn ak : String) (penv : PCEnv) (chunk : PChunk) (procs : List String)
    (h : chunk.id ∉ procs) :
    get_processing_status (generate_tts_background env key cid db r).2 cid = none ∧
    chunk.id ∉ (process_chunk pn ak penv chunk procs).2.2 := by
  constructor
  · unfold generate_tts_background
    rcases env.speechResult with a | m
    · cases hf : isFalsy a
      · simp only [hf, Bool.false_eq_true, if_false]
        rcases env.uploadResult with s | m
        · cases s
          · simp [get_processing_status, delete_processing_status]
          · by_cases hfound : db.any (fun c => c.id = cid)
            · simp only [hfound, if_true]
              rcases env.commitResult with u | m <;>
                simp [get_processing_status, delete_processing_status]
            · simp only [hfound, if_false]
              simp [get_processing_status, delete_processing_status]
        · simp [get_processing_status, delete_processing_status]
      · simp [hf, get_processing_status, delete_processing_status]
    · simp [get_processing_status, delete_processing_status]
  · unfold process_chunk
    rw [if_neg h]
    show chunk.id ∉ (chunk.id :: procs).erase chunk.id
    rw [List.erase_cons_head]
    exact h

/-- Witness for C2 at a successful backend run and a successful python
run. -/
theorem inflight_marker_cleared_on_every_exit_witness :
    get_processing_status
      (generate_tts_background ⟨.ret (some [1]), .ret true, .ret ()⟩ "k" 1 [exChunk]
        exRedisInflight2).2 1 = none ∧
    "x" ∉ (process_chunk "cartesia" "key" ⟨.ret (), .ret [1], .ret "u", .ret ()⟩
      ⟨"x", "p", 0, "t", none, "pending", none⟩ []).2.2 :=
  inflight_marker_cleared_on_every_exit ⟨.ret (some [1]), .ret true, .ret ()⟩ "k" 1 [exChunk]
    exRedisInflight2 "cartesia" "key" ⟨.ret (), .ret [1], .ret "u", .ret ()⟩
    ⟨"x", "p", 0, "t", none, "pending", none⟩ [] (List.not_mem_nil _)

/-- Claim C1: the router's claim of a chunk is a separate
`get_processing_status` followed by `set_processing_status`, not one
atomic check-and-set.  Under the interleaving check-A, check-B, set-A,
set-B from an unclaimed store, both concurrent callers complete without
observing a conflict — two callers claim the same chunk and both
dispatch generation, contradicting exactly-one-winner.  (Under the fully
serialized schedule A-check, A-set, B-check, B-set the second caller
does observe the conflict.) -/
theorem nonatomic_claim_double_success :
    claimSucceeded (runSchedule 1 [false, true, false, true]
      ⟨⟨0, false⟩, ⟨0, false⟩, emptyRedis⟩).a = true ∧
    claimSucceeded (runSchedule 1 [false, true, false, true]
      ⟨⟨0, false⟩, ⟨0, false⟩, emptyRedis⟩).b = true ∧
    claimSucceeded (runSchedule 1 [false, false, true, true]
      ⟨⟨0, false⟩, ⟨0, false⟩, emptyRedis⟩).a = true ∧
    claimSucceeded (runSchedule 1 [false, false, true, true]
      ⟨⟨0, false⟩, ⟨0, false⟩, emptyRedis⟩).b = false := by
  refine ⟨rfl, rfl, rfl, rfl⟩

/-- The batch slicing reassembles to the original list: the groups are
contiguous and order-preserving. -/
theorem groupsOf_join (W : Nat) (hW : W ≠ 0) (l : List PChunk) :
    (groupsOf W l).flatten = l := by
  have H : ∀ n (l : List PChunk), l.length ≤ n → (groupsOf W l).flatten = l := by
    intro n
    induction n with
    | zero =>
      intro l hl
      have : l = [] := List.length_eq_zero.mp (Nat.le_zero.mp hl)
      subst this
      rw [groupsOf, dif_pos (Or.inr rfl)]
      rfl
    | succ n ih =>
      intro l hl
      by_cases h0 : l = []
      · subst h0
        rw [groupsOf, dif_pos (Or.inr rfl)]
        rfl
      · rw [groupsOf, dif_neg (by simp [hW, h0])]
        have hlen : (l.drop W).length ≤ n := by
          have h1 : 1 ≤ l.length := by
            cases l
            · exact absurd rfl h0
            · simp
          rw [List.length_drop]
          omega
        rw [List.flatten_cons, ih (l.drop W) hlen, List.take_append_drop]
  exact H l.length l le_rfl

/-- The batch slicing produces `ceil(K / W)` groups. -/
theorem groupsOf_length (W : Nat) (hW : W ≠ 0) (l : List PChunk) :
    (groupsOf W l).length = (l.length + W - 1) / W := by
  have hpos : 0 < W := Nat.pos_of_ne_zero hW
  have H : ∀ n (l : List PChunk), l.length ≤ n →
      (groupsOf W l).length = (l.length + W - 1) / W := by
    intro n
    induction n with
    | zero =>
      intro l hl
      have : l = [] := List.length_eq_zero.mp (Nat.le_zero.mp hl)
      subst this
      rw [groupsOf, dif_pos (Or.inr rfl)]
      exact (Nat.div_eq_of_lt (show ([] : List PChunk).length + W - 1 < W by simp; omega)).symm
    | succ n ih =>
      intro l hl
      by_cases h0 : l = []
      · subst h0
        rw [groupsOf, dif_pos (Or.inr rfl)]
        exact (Nat.div_eq_of_lt (show ([] : List PChunk).length + W - 1 < W by simp; omega)).symm
      · rw [groupsOf, dif_neg (by simp [hW, h0])]
        have h1 : 1 ≤ l.length := by
          cases l
          · exact absurd rfl h0
          · simp
        have hlen : (l.drop W).length ≤ n := by
          rw [List.length_drop]
          omega
        rw [List.length_cons, ih (l.drop W) hlen, List.length_drop]
        have hR : l.length + W - 1 = (l.length - 1) + W := by omega
        rw [hR, Nat.add_div_right _ hpos]
        rcases Nat.le_total l.length W with hle | hle
        · have e0 : l.length - W = 0 := by omega
          rw [e0]
          have h2 : (0 + W - 1) / W = 0 := Nat.div_eq_of_lt (by omega)
          have h3 : (l.length - 1) / W = 0 := Nat.div_eq_of_lt (by omega)
          omega
        · have e1 : l.length - W + W - 1 = l.length - 1 := by omega
          rw [e1]
  exact H l.length l le_rfl

/-- Every group produced by the batch slicing has at most `W` members. -/
theorem groupsOf_size (W : Nat) (l : List PChunk) :
    ∀ g ∈ groupsOf W l, g.length ≤ W := by
  have H : ∀ n (l : List PChunk), l.length ≤ n → ∀ g ∈ groupsOf W l, g.length ≤ W := by
    intro n
    induction n with
    | zero =>
      intro l hl g hg
      have : l = [] := List.length_eq_zero.mp (Nat.le_zero.mp hl)
      subst this
      rw [groupsOf, dif_pos (Or.inr rfl)] at hg
      simp at hg
    | succ n ih =>
      intro l hl g hg
      by_cases h0 : l = []
      · subst h0
        rw [groupsOf, dif_pos (Or.inr rfl)] at hg
        simp at hg
      · by_cases hW : W = 0
        · rw [groupsOf, dif_pos (Or.inl hW)] at hg
          simp at hg
        · rw [groupsOf, dif_neg (by simp [hW, h0])] at hg
          rcases List.mem_cons.mp hg with hg | hg
          · subst hg
            simp [List.length_take]
          · have h1 : 1 ≤ l.length := by
              cases l
              · exact absurd rfl h0
              · simp
            exact ih (l.drop W) (by rw [List.length_drop]; omega) g hg
  exact H l.length l le_rfl

/-- Folding the per-group success counts totals the per-chunk counts. -/
theorem foldl_count_successes (outcome : PChunk → GatherResult) :
    ∀ (gs : List (List PChunk)) (a : Nat),
      gs.foldl (fun acc batch => acc + count_successes outcome batch) a =
        a + (gs.flatten.filter fun c => outcome c = GatherResult.ok true).length := by
  intro gs
  induction gs with
  | nil => intro a; simp
  | cons g gs ih =>
    intro a
    rw [List.foldl_cons, ih, List.flatten_cons, List.filter_append, List.length_append]
    unfold count_successes
    omega

/-- Claim C7: batch processing slices the K chunks into ceil(K/W)
contiguous order-preserving groups of at most W members each, and the
returned count equals the number of chunks whose gathered result is
literally `True` — a member that fails or raises is merely not counted
and neither aborts the batch nor affects its siblings' counts. -/
theorem process_chunks_batch_spec (outcome : PChunk → GatherResult) (chunks : List PChunk)
    (W : Nat) (hW : 1 ≤ W) :
    (groupsOf W chunks).length = (chunks.length + W - 1) / W ∧
    (groupsOf W chunks).flatten = chunks ∧
    (∀ g ∈ groupsOf W chunks, g.length ≤ W) ∧
    process_chunks_batch outcome chunks W =
      (chunks.filter fun c => outcome c = GatherResult.ok true).length := by
  have hW0 : W ≠ 0 := by omega
  refine ⟨groupsOf_length W hW0 chunks, groupsOf_join W hW0 chunks,
    groupsOf_size W chunks, ?_⟩
  unfold process_chunks_batch
  rw [foldl_count_successes outcome (groupsOf W chunks) 0, groupsOf_join W hW0 chunks]
  omega

/-- Witness for C7: three chunks at width 2 make two groups; the middle
chunk raises yet the other two are counted. -/
theorem process_chunks_batch_spec_witness :
    (groupsOf 2 [pA, pB, pC]).length = 2 ∧
    process_chunks_batch exOutcome [pA, pB, pC] 2 = 2 :=
  ⟨((process_chunks_batch_spec exOutcome [pA, pB, pC] 2 (by omega)).1).trans (by rfl),
   ((process_chunks_batch_spec exOutcome [pA, pB, pC] 2 (by omega)).2.2.2).trans (by rfl)⟩

/-- Claim C10: an upload whose filename does not end in ".pdf"
(case-insensitively) or whose size exceeds 20 MB yields an error
response and leaves the application state — document rows, chunk rows,
stored objects, dispatched tasks — untouched. -/
theorem upload_pdf_rejects_invalid (filename : String) (size : Nat) (provider api_key : String)
    (env : UploadEnv) (docId : String) (st : PyAppState)
    (h : endsWithStr (lowerStr filename) ".pdf" = false ∨ size > 20 * 1024 * 1024) :
    (∃ msg, (upload_pdf filename size provider api_key env docId st).1 = Except.error msg) ∧
    (upload_pdf filename size provider api_key env docId st).2 = st := by
  unfold upload_pdf
  by_cases hf : endsWithStr (lowerStr filename) ".pdf"
  · have hs : size > 20 * 1024 * 1024 := by
      rcases h with h | h
      · rw [hf] at h; exact absurd h (by simp)
      · exact h
    rw [if_neg (by simp [hf]), if_pos hs]
    exact ⟨⟨_, rfl⟩, rfl⟩
  · rw [if_pos (by simp [hf])]
    exact ⟨⟨_, rfl⟩, rfl⟩

/-- Witness for C10 at a non-PDF filename. -/
theorem upload_pdf_rejects_invalid_witness :
    (∃ msg, (upload_pdf "notes.txt" 100 "elevenlabs" "key"
      ⟨"text", ["text"], 1, .ret "url"⟩ "d1" ⟨[], [], [], []⟩).1 = Except.error msg) ∧
    (upload_pdf "notes.txt" 100 "elevenlabs" "key"
      ⟨"text", ["text"], 1, .ret "url"⟩ "d1" ⟨[], [], [], []⟩).2 = ⟨[], [], [], []⟩ :=
  upload_pdf_rejects_invalid "notes.txt" 100 "elevenlabs" "key"
    ⟨"text", ["text"], 1, .ret "url"⟩ "d1" ⟨[], [], [], []⟩ (Or.inl (by decide))

/-- The post-cache-check conditional of `generate_tts`: a 202 answer
means the conflict branch was not taken. -/
theorem afterCache_accepted_eq (db : List TextChunk) (r : RedisState) (cid : Nat)
    (chunk : TextChunk)
    (hacc : (if get_processing_status r cid = some "processing" then
        (⟨.conflict, [], r⟩ : GTResult) else claim_and_dispatch db r chunk).response =
      .accepted) :
    (if get_processing_status r cid = some "processing" then
        (⟨.conflict, [], r⟩ : GTResult) else claim_and_dispatch db r chunk) =
      claim_and_dispatch db r chunk := by
  by_cases hst : get_processing_status r cid = some "processing"
  · rw [if_pos hst] at hacc
    exact absurd hacc (by simp)
  · rw [if_neg hst]

/-- A `/tts/generate` run that answered 202 took the claim-and-dispatch
path for the chunk the id resolved to. -/
theorem generate_tts_accepted_eq (fe : String → Bool) (ps : String → Option String)
    (db : List TextChunk) (r : RedisState) (cid : Nat) (chunk : TextChunk)
    (hfind : db.find? (fun c => c.id = cid) = some chunk)
    (hacc : (generate_tts fe ps db r cid).response = .accepted) :
    generate_tts fe ps db r cid = claim_and_dispatch db r chunk := by
  unfold generate_tts at hacc ⊢
  simp only [hfind] at hacc ⊢
  rcases hc : get_audio_cache r cid with _ | key <;> simp only [hc] at hacc ⊢
  · exact afterCache_accepted_eq db r cid chunk hacc
  · by_cases hfe : fe key = true
    · rw [if_pos hfe] at hacc ⊢
      rcases hps : ps key with _ | url <;> simp only [hps] at hacc ⊢
      · exact afterCache_accepted_eq db r cid chunk hacc
      · exact absurd hacc (by simp)
    · rw [if_neg hfe] at hacc ⊢
      exact afterCache_accepted_eq db r cid chunk hacc

/-- The element `find?` returns satisfies the lookup predicate. -/
theorem find_chunk_id (db : List TextChunk) (cid : Nat) (chunk : TextChunk)
    (hfind : db.find? (fun c => c.id = cid) = some chunk) : chunk.id = cid := by
  have := List.find?_some hfind
  exact of_decide_eq_true this

/-- Claim C3 (amended): when the audio cache holds a key, the object
exists and a presigned URL is produced, the cached URL is returned with
nothing dispatched (no provider invoked) and the store untouched; when
the cache holds a key but the object store reports it missing (and no
in-flight marker is set), a fresh generation is dispatched for the
chunk. -/
theorem cached_audio_request (fe : String → Bool) (ps : String → Option String)
    (db : List TextChunk) (r : RedisState) (cid : Nat) (chunk : TextChunk) (key : String)
    (hfind : db.find? (fun c => c.id = cid) = some chunk)
    (hkey : get_audio_cache r cid = some key) :
    (∀ url, fe key = true → ps key = some url →
      generate_tts fe ps db r cid = ⟨.cached url, [], r⟩) ∧
    (fe key = false → get_processing_status r cid ≠ some "processing" →
      (generate_tts fe ps db r cid).response = .accepted ∧
      cid ∈ (generate_tts fe ps db r cid).dispatched) := by
  constructor
  · intro url hfe hps
    unfold generate_tts
    simp only [hfind, hkey]
    rw [if_pos hfe]
    simp only [hps]
  · intro hfe hst
    have hchunk := find_chunk_id db cid chunk hfind
    unfold generate_tts
    simp only [hfind, hkey]
    rw [if_neg (by simp [hfe]), if_neg hst]
    unfold claim_and_dispatch
    exact ⟨rfl, by rw [hchunk]; exact List.mem_cons_self _ _⟩

/-- Witness for C3 at a concrete cache hit (object present, presign
succeeds) and a concrete stale entry (object missing). -/
theorem cached_audio_request_witness :
    generate_tts (fun _ => true) (fun _ => some "u") [exChunk] exRedisCached 1 =
      ⟨.cached "u", [], exRedisCached⟩ ∧
    (generate_tts (fun _ => false) (fun _ => none) [exChunk] exRedisCached 1).response =
      .accepted :=
  ⟨(cached_audio_request (fun _ => true) (fun _ => some "u") [exChunk] exRedisCached 1
      exChunk "k" rfl rfl).1 "u" rfl rfl,
   ((cached_audio_request (fun _ => false) (fun _ => none) [exChunk] exRedisCached 1
      exChunk "k" rfl rfl).2 rfl (by simp [exRedisCached, emptyRedis,
        get_processing_status])).1⟩

/-- Counterexample to claim C3 as stated.  First: the cache holds a key
for chunk 1 and the object store confirms the object exists, yet —
because the presigned-URL call returns nothing — the route does not
return the cached result: it dispatches a fresh generation for the
chunk, invoking providers despite the valid cache entry.  Second: the
cache holds a key, the object store reports the object missing, and the
chunk is marked in flight — no fresh generation is dispatched; the route
answers conflict instead. -/
theorem cached_hit_presign_failure_generates :
    ((generate_tts (fun _ => true) (fun _ => none) [exChunk] exRedisCached 1).response =
        .accepted ∧
      (generate_tts (fun _ => true) (fun _ => none) [exChunk] exRedisCached 1).dispatched =
        [1]) ∧
    ((generate_tts (fun _ => false) (fun _ => none) [exChunk] exRedisStaleBusy 1).response =
        .conflict ∧
      (generate_tts (fun _ => false) (fun _ => none) [exChunk] exRedisStaleBusy 1).dispatched =
        []) := by
  exact ⟨⟨rfl, rfl⟩, ⟨rfl, rfl⟩⟩

/-- Claim C6 (amended): a 202 answer dispatches the requested chunk and
then — only when the requested id is not in the document's buffer
queue — exactly the prefetch targets: the same-document chunks with
index in `(i, i+2]` that have no audio-cache entry.  In-flight markers
are not consulted when selecting prefetch targets, and every dispatched
id other than the requested one belongs to a chunk inside that window
with no cache entry. -/
theorem prefetch_window (fe : String → Bool) (ps : String → Option String)
    (db : List TextChunk) (r : RedisState) (cid : Nat) (chunk : TextChunk)
    (hfind : db.find? (fun c => c.id = cid) = some chunk)
    (hacc : (generate_tts fe ps db r cid).response = .accepted) :
    (generate_tts fe ps db r cid).dispatched =
      chunk.id :: (if chunk.id ∈ get_buffer_queue
          (set_processing_status r chunk.id "processing") chunk.document_id then []
        else prefetch_targets db (set_processing_status r chunk.id "processing") chunk) ∧
    (∀ i ∈ (generate_tts fe ps db r cid).dispatched, i ≠ chunk.id →
      ∃ c ∈ db, c.id = i ∧ c.document_id = chunk.document_id ∧
        chunk.chunk_index < c.chunk_index ∧ c.chunk_index ≤ chunk.chunk_index + 2 ∧
        get_audio_cache (set_processing_status r chunk.id "processing") c.id = none) := by
  have heq := generate_tts_accepted_eq fe ps db r cid chunk hfind hacc
  rw [heq]
  unfold claim_and_dispatch
  refine ⟨rfl, ?_⟩
  intro i hi hne
  simp only [List.mem_cons] at hi
  rcases hi with hi | hi
  · exact absurd hi hne
  · by_cases hbq : chunk.id ∈ get_buffer_queue
        (set_processing_status r chunk.id "processing") chunk.document_id
    · rw [if_pos hbq] at hi
      simp at hi
    · rw [if_neg hbq] at hi
      unfold prefetch_targets at hi
      rcases List.mem_map.mp hi with ⟨c, hc, hci⟩
      rcases List.mem_filter.mp hc with ⟨hc1, hc2⟩
      rcases List.mem_filter.mp hc1 with ⟨hc0, hc3⟩
      have hc3' := of_decide_eq_true hc3
      exact ⟨c, hc0, hci, hc3'.1, hc3'.2.1, hc3'.2.2, by
        simpa using hc2⟩

/-- Witness for C6: requesting chunk 1 (index 0) of a four-chunk
document dispatches chunks 2 and 3 (indices 1 and 2) and not chunk 4
(index 3). -/
theorem prefetch_window_witness :
    (generate_tts (fun _ => false) (fun _ => none) exDb4 emptyRedis 1).dispatched =
      1 :: (if (1 : Nat) ∈ get_buffer_queue
          (set_processing_status emptyRedis 1 "processing") 10 then []
        else prefetch_targets exDb4 (set_processing_status emptyRedis 1 "processing")
          ⟨1, 10, 0, "a", false, none⟩) :=
  (prefetch_window (fun _ => false) (fun _ => none) exDb4 emptyRedis 1
    ⟨1, 10, 0, "a", false, none⟩ rfl rfl).1

/-- Counterexample to claim C6 as stated.  First: chunk 2 (index 1)
already carries an in-flight marker, yet requesting chunk 1 (index 0)
dispatches generation for it anyway — the prefetch filter consults only
the audio cache, never the in-flight marker.  Second: when the requested
id sits in the document's buffer queue, no prefetch is dispatched at
all, although chunks at indices 1 and 2 are neither cached nor in
flight. -/
theorem prefetch_dispatches_inflight :
    (get_processing_status exRedisInflight2 2 = some "processing" ∧
      (generate_tts (fun _ => false) (fun _ => none) exDb4 exRedisInflight2 1).dispatched =
        [1, 2, 3]) ∧
    (generate_tts (fun _ => false) (fun _ => none) exDb4 exRedisBuffered 1).dispatched =
      [1] := by
  exact ⟨⟨rfl, rfl⟩, rfl⟩

/-- Claim C5 (amended): when generation fails, the python processor
marks the chunk record "error" with the exception's message, sets no
audio URL, and returns failure; the backend pipeline creates no audio
cache entry and leaves the chunk record untouched — the backend record
is not moved to an error state (it has no error column). -/
theorem generation_failure_recording
    (pn ak : String) (p : TTSProvider) (penv : PCEnv) (chunk : PChunk)
    (procs : List String) (msg : String)
    (hnp : chunk.id ∉ procs)
    (hc1 : penv.commit1 = .ret ())
    (hprov : create_provider pn ak = .ok p)
    (hgen : penv.genAudio = .exc msg)
    (env : BgEnv) (key : String) (cid : Nat) (db : List TextChunk) (r : RedisState)
    (hsp : env.speechResult = .ret none) :
    ((process_chunk pn ak penv chunk procs).1 = false ∧
      (process_chunk pn ak penv chunk procs).2.1.status = "error" ∧
      (process_chunk pn ak penv chunk procs).2.1.error_message = some msg ∧
      (process_chunk pn ak penv chunk procs).2.1.audioUrl = chunk.audioUrl) ∧
    ((generate_tts_background env key cid db r).1 = db ∧
      (generate_tts_background env key cid db r).2.audioCache = r.audioCache) := by
  constructor
  · unfold process_chunk
    rw [if_neg hnp]
    simp only [hc1, hprov, hgen]
    exact ⟨by trivial, by trivial, by trivial, by trivial⟩
  · unfold generate_tts_background
    simp only [hsp, isFalsy, if_true]
    exact ⟨by trivial, by trivial⟩

/-- Witness for C5 with a failing ElevenLabs call in the python
processor and an all-providers failure in the backend task. -/
theorem generation_failure_recording_witness :
    ((process_chunk "elevenlabs" "ak" ⟨.ret (), .exc "boom", .ret "u", .ret ()⟩ pA []).2.1.status
        = "error" ∧
      (process_chunk "elevenlabs" "ak" ⟨.ret (), .exc "boom", .ret "u", .ret ()⟩
        pA []).2.1.error_message = some "boom") ∧
    (generate_tts_background ⟨.ret none, .ret true, .ret ()⟩ "k" 1 [exChunk]
      (set_processing_status emptyRedis 1 "processing")).1 = [exChunk] :=
  let h := generation_failure_recording "elevenlabs" "ak" (.elevenLabs "ak")
    ⟨.ret (), .exc "boom", .ret "u", .ret ()⟩ pA [] "boom" (List.not_mem_nil _) rfl rfl rfl
    ⟨.ret none, .ret true, .ret ()⟩ "k" 1 [exChunk]
    (set_processing_status emptyRedis 1 "processing") rfl
  ⟨⟨h.1.2.1, h.1.2.2.1⟩, h.2.1⟩

/-- Counterexample to claim C5 as stated: all providers fail in the
backend pipeline (`generate_speech` returned `None`), the claim requires
the chunk's record to be updated to an error state carrying the failure
message — but the backend leaves the chunk row exactly as it was (the
`text_chunks` table has no error column at all); only the in-flight
marker is cleared and no cache entry is written. -/
theorem backend_failure_leaves_record_unchanged :
    (generate_tts_background ⟨.ret none, .ret true, .ret ()⟩ "k" 1 [exChunk]
      (set_processing_status emptyRedis 1 "processing")).1 = [exChunk] ∧
    get_audio_cache (generate_tts_background ⟨.ret none, .ret true, .ret ()⟩ "k" 1 [exChunk]
      (set_processing_status emptyRedis 1 "processing")).2 1 = none := ⟨rfl, rfl⟩

/-- Claim C8 (amended): adapters return the backend's 200 payload
unchecked — `CartesiaProvider.generate_audio` reports a 200 response as
success even when the body is empty — and the empty-payload-as-failure
rule lives in the provider selector instead: `generate_speech` never
stops the chain at an empty result, and whenever it stops at the first
provider the accepted result is non-empty. -/
theorem empty_payload_selector_guard (status : Nat) (content : ByteSeq)
    (p1 p2 p3 : String → Option ByteSeq) (text : String)
    (h200 : status = 200) :
    cartesia_generate_audio status content = .ret content ∧
    (isFalsy (p1 text) = true → (generate_speech p1 p2 p3 text).invoked ≠ [0]) ∧
    ((generate_speech p1 p2 p3 text).invoked = [0] →
      isFalsy (generate_speech p1 p2 p3 text).result = false) := by
  refine ⟨?_, ?_, ?_⟩
  · unfold cartesia_generate_audio
    rw [if_neg (show ¬status ≠ 200 from fun h => h h200)]
  · intro h1
    simp only [generate_speech]
    rw [if_pos h1]
    by_cases h2 : isFalsy (p2 text) = true
    · rw [if_pos h2]; simp
    · rw [if_neg h2]; simp
  · intro hinv
    cases hb : isFalsy (p1 text)
    case false =>
      simp only [generate_speech]
      rw [if_neg (by rw [hb]; exact Bool.false_ne_true)]
      exact hb
    case true =>
      exfalso
      simp only [generate_speech] at hinv
      rw [if_pos hb] at hinv
      by_cases h2 : isFalsy (p2 text) = true
      · rw [if_pos h2] at hinv; simp at hinv
      · rw [if_neg h2] at hinv; simp at hinv

/-- Witness for C8: an empty 200 body flows out of the adapter, and a
first provider returning an empty payload does not end the chain. -/
theorem empty_payload_selector_guard_witness :
    cartesia_generate_audio 200 [] = StepResult.ret [] ∧
    (generate_speech (fun _ => some []) (fun _ => some [2, 3]) (fun _ => none)
      "t").invoked ≠ [0] :=
  ⟨(empty_payload_selector_guard 200 [] (fun _ => some []) (fun _ => some [2, 3])
      (fun _ => none) "t" rfl).1,
    (empty_payload_selector_guard 200 [] (fun _ => some []) (fun _ => some [2, 3])
      (fun _ => none) "t" rfl).2.1 rfl⟩

/-- Counterexample to claim C8 as stated: at HTTP status 200 with a
zero-length body, the Cartesia adapter reports success carrying the
empty payload — it does not treat the empty payload as a failure — and
the backend's direct-Cartesia helper likewise returns the empty body as
a successful value. -/
theorem empty_payload_reported_as_success :
    cartesia_generate_audio 200 [] = StepResult.ret [] ∧
    cartesia_generate_audio 200 [] ≠ StepResult.exc "Cartesia API error" ∧
    generate_speech_cartesia_direct true 200 [] = some [] := by
  exact ⟨rfl, by simp [cartesia_generate_audio], rfl⟩

end OpenReader
